import Mathlib

/-!
# Verification of the CinemaBackOffice speelweek/ticket-accounting engine

Shallow embedding of the core accounting logic of `cinema_borderel.py`:
the settings store, the speelweek calendar, the ticket-range allocator,
the financial statement calculator, and the rate parser.  Dates are
modelled as integers counting days from an epoch chosen so that day 0 is
a Monday (so Python's `date.weekday()` becomes `d % 7`).  Currency
amounts are modelled as rationals; the Python source computes the
derived figures with plain arithmetic expressions, which the rational
model mirrors exactly.  Database tables are modelled as in-memory lists
with the source's SQL queries translated to deterministic list
operations (unique keys are assumed as in the schema, so `LIMIT 1`
lookups are first-match lookups).
-/

/-- Python's `date.weekday()`: Monday = 0.  Day numbers use an epoch whose
day 0 is a Monday, so the weekday is the (always non-negative) remainder
mod 7, exactly like Python's `%` on a positive modulus. -/
def pyWeekday (d : Int) : Int := d % 7

/-- Source `calc_ticket_end` from `cinema_borderel.py`: for quantity 0 the end
number is `begin - 1` (degenerate range). -/
def calc_ticket_end (ticket_begin qty : Int) : Int :=
  if qty > 0 then ticket_begin + qty - 1 else ticket_begin - 1

/-- Source `speelweek_range` from `cinema_borderel.py` (also in `cinema.py`):
start of the programming week containing `d`, with exclusive end. -/
def speelweek_range (d : Int) (week_start_weekday : Int) : Int × Int :=
  let weekday := pyWeekday d
  let days_since_start := (weekday - week_start_weekday) % 7
  let start := d - days_since_start
  (start, start + 7)

/-! ## Model of Python's `str`/`int` conversions on integers

The settings table stores strings; the source round-trips counters
through `str(...)` and `int(...)`.  These are modelled by executable
character-list functions (decimal digits, optional sign, surrounding
whitespace stripped by `int`). -/

/-- Decimal digit character for a digit value (values ≥ 9 all map to '9';
only used with values < 10). -/
def digChar (d : Nat) : Char :=
  match d with
  | 0 => '0' | 1 => '1' | 2 => '2' | 3 => '3' | 4 => '4'
  | 5 => '5' | 6 => '6' | 7 => '7' | 8 => '8' | _ => '9'

/-- Is `c` a decimal digit? -/
def isDigitCh (c : Char) : Bool := 48 ≤ c.toNat && c.toNat ≤ 57

/-- Whitespace characters stripped by Python's `str.strip()` / `int()` /
`float()` (the ASCII ones; exotic unicode whitespace is out of scope). -/
def isWsCh (c : Char) : Bool := c = ' ' || c = '\t' || c = '\n' || c = '\r'

/-- Value of a big-endian list of digit characters. -/
def digitsVal (l : List Char) : Nat :=
  l.foldl (fun a c => a * 10 + (c.toNat - 48)) 0

/-- Big-endian decimal digit characters of `n` (with enough fuel);
`natDigitsFuel fuel 0 = []`. -/
def natDigitsFuel : Nat → Nat → List Char
  | 0, _ => []
  | fuel + 1, n => if n = 0 then [] else natDigitsFuel fuel (n / 10) ++ [digChar (n % 10)]

/-- Decimal digit characters of `n`, non-empty (`0 ↦ "0"`). -/
def natChars (n : Nat) : List Char :=
  if n = 0 then ['0'] else natDigitsFuel n n

/-- Characters of Python's `str(n)` for an integer `n`. -/
def intChars (n : Int) : List Char :=
  if n < 0 then '-' :: natChars n.natAbs else natChars n.toNat

/-- Model of Python's `str(n)` for integers. -/
def pyStrOfInt (n : Int) : String := String.mk (intChars n)

/-- Strip leading and trailing whitespace from a character list
(model of Python's `str.strip()`). -/
def stripChars (l : List Char) : List Char :=
  ((l.dropWhile isWsCh).reverse.dropWhile isWsCh).reverse

/-- Parse a non-empty all-digit character list as a natural number. -/
def parseNatChars (l : List Char) : Option Nat :=
  if l ≠ [] ∧ l.all isDigitCh then some (digitsVal l) else none

/-- Parse an optionally signed digit string (no stripping). -/
def parseIntChars (l : List Char) : Option Int :=
  match l with
  | [] => none
  | c :: rest =>
    if c = '-' then (parseNatChars rest).map (fun n => -(Int.ofNat n))
    else if c = '+' then (parseNatChars rest).map (fun n => Int.ofNat n)
    else (parseNatChars l).map (fun n => Int.ofNat n)

/-- Model of Python's `int(s)` on strings: strips whitespace, then an
optionally signed decimal number; `none` models the `ValueError`. -/
def pyIntOfStr (s : String) : Option Int :=
  parseIntChars (stripChars s.data)


/-! ## Data model

In-memory model of the MySQL tables used by the core
(`settings`, `speelweek`, `daily_sales`, `ticket_ranges`). -/

/-- A row of the `speelweek` table. -/
structure Speelweek where
  id : Int
  weeknummer : Int
  start_datum : Int
  eind_datum : Int
deriving DecidableEq

/-- A row of the `daily_sales` table (the columns the core reads). -/
structure DailySales where
  datum : Int
  speelweek_id : Int
  film_id : Int
  zaal_id : Option Int
  is_3d : Bool
  aantal_volw : Int
  aantal_kind : Int
  gratis_volw : Int
  gratis_kind : Int
  bedrag_volw : Rat
  bedrag_kind : Rat
deriving DecidableEq

/-- A row of the `ticket_ranges` table. -/
structure TicketRange where
  speelweek_id : Int
  film_id : Int
  zaal_id : Option Int
  begin_volw : Int
  begin_kind : Int
deriving DecidableEq

/-- The persistent database state. `next_speelweek_id` models the
AUTO_INCREMENT id (`cur.lastrowid`). -/
structure DBState where
  settings : List (String × String)
  speelweek : List Speelweek
  daily_sales : List DailySales
  ticket_ranges : List TicketRange
  next_speelweek_id : Int
deriving DecidableEq

/-- SQL `COALESCE(zaal_id, 0)`. -/
def coalesce0 (z : Option Int) : Int := z.getD 0

/-- Upsert into the unique-keyed `settings` table
(`INSERT ... ON DUPLICATE KEY UPDATE`). -/
def setAssoc : List (String × String) → String → String → List (String × String)
  | [], k, v => [(k, v)]
  | kv :: rest, k, v => if kv.1 = k then (k, v) :: rest else kv :: setAssoc rest k v

/-- Source `db_get_setting`: `SELECT value FROM settings WHERE key=...`. -/
def db_get_setting (st : DBState) (key : String) : Option String :=
  (st.settings.find? (fun kv => kv.1 = key)).map (fun kv => kv.2)

/-- Source `db_set_setting`. -/
def db_set_setting (st : DBState) (key value : String) : DBState :=
  { st with settings := setAssoc st.settings key value }

/-- Source `db_get_int_setting`: missing or unparsable values are replaced by the
default, which is persisted. -/
def db_get_int_setting (st : DBState) (key : String) (dflt : Int) : Int × DBState :=
  match db_get_setting st key with
  | none => (dflt, db_set_setting st key (pyStrOfInt dflt))
  | some v =>
    match pyIntOfStr v with
    | some n => (n, st)
    | none => (dflt, db_set_setting st key (pyStrOfInt dflt))

/-- Source `db_set_int_setting`. -/
def db_set_int_setting (st : DBState) (key : String) (value : Int) : DBState :=
  db_set_setting st key (pyStrOfInt value)

/-- Source `db_get_week_start_weekday`: default 1 (Tuesday), persisted when the
stored value is missing, unparsable, or out of `[0, 6]` (the source sends
all three cases to the same `db_set_setting(..., "1"); return 1`
fallback, here fused through `Option.bind`). -/
def db_get_week_start_weekday (st : DBState) : Int × DBState :=
  match (db_get_setting st "week_start_weekday").bind pyIntOfStr with
  | some n =>
    if 0 ≤ n ∧ n ≤ 6 then (n, st)
    else (1, db_set_setting st "week_start_weekday" "1")
  | none => (1, db_set_setting st "week_start_weekday" "1")

/-- Source `db_get_or_create_speelweek`: look up the week with the computed
bounds; otherwise allocate `week_number` from the `week_counter` setting
(default 1), insert, and persist the incremented counter.  `none` models
the `ValueError` raised by `int(week_counter)` on an unparsable stored
counter. -/
def db_get_or_create_speelweek (st : DBState) (d : Int) :
    Option ((Int × Int) × DBState) :=
  let ws := db_get_week_start_weekday st
  let st1 := ws.2
  let bounds := speelweek_range d ws.1
  match st1.speelweek.find? (fun sw =>
      sw.start_datum == bounds.1 && sw.eind_datum == bounds.2) with
  | some row => some ((row.id, row.weeknummer), st1)
  | none =>
    let wk :=
      match db_get_setting st1 "week_counter" with
      | none => ("1", db_set_setting st1 "week_counter" "1")
      | some v => (v, st1)
    match pyIntOfStr wk.1 with
    | none => none
    | some weeknummer =>
      let st2 := wk.2
      let newId := st2.next_speelweek_id
      let st3 := { st2 with
        speelweek := st2.speelweek ++ [⟨newId, weeknummer, bounds.1, bounds.2⟩],
        next_speelweek_id := newId + 1 }
      let st4 := db_set_setting st3 "week_counter" (pyStrOfInt (weeknummer + 1))
      some ((newId, weeknummer), st4)

/-- Source `db_update_speelweek_weeknummer`: `UPDATE speelweek SET weeknummer=...
WHERE id=...`. -/
def db_update_speelweek_weeknummer (st : DBState) (speelweek_id new_weeknr : Int) :
    DBState :=
  { st with speelweek := st.speelweek.map (fun sw =>
      if sw.id == speelweek_id then { sw with weeknummer := new_weeknr } else sw) }

/-- Source `db_sum_paid_qty_for_speelweek`: `SUM(aantal_volw), SUM(aantal_kind)`
over the daily-sales rows of one (speelweek, film, zaal) key
(`COALESCE` on both sides of the zaal comparison). -/
def db_sum_paid_qty_for_speelweek (st : DBState) (speelweek_id film_id : Int)
    (zaal_id : Option Int) : Int × Int :=
  let rows := st.daily_sales.filter (fun r =>
    r.speelweek_id == speelweek_id && r.film_id == film_id &&
      coalesce0 r.zaal_id == coalesce0 zaal_id)
  ((rows.map (fun r => r.aantal_volw)).sum, (rows.map (fun r => r.aantal_kind)).sum)

/-! ## Speelweek creation helpers -/

/-- The stored `week_start_weekday` setting is present and valid (parses
to `ws ∈ [0,6]`), so the weekday getter is read-only. -/
def weekStartIs (st : DBState) (ws : Int) : Prop :=
  ∃ v, db_get_setting st "week_start_weekday" = some v ∧
    pyIntOfStr v = some ws ∧ 0 ≤ ws ∧ ws ≤ 6

/-- The week number the next created speelweek would receive: the parsed
`week_counter` setting, defaulting to 1 when unset; `none` when the
stored value would make `int(week_counter)` raise. -/
def weekCounterRead (st : DBState) : Option Int :=
  match db_get_setting st "week_counter" with
  | none => some 1
  | some v => pyIntOfStr v


/-! ## Ticket-range allocator -/

/-- Constant `DEFAULT_TICKET_COUNTER_VOLW` from the source configuration. -/
def DEFAULT_TICKET_COUNTER_VOLW : Int := 1

/-- Constant `DEFAULT_TICKET_COUNTER_KIND` from the source configuration. -/
def DEFAULT_TICKET_COUNTER_KIND : Int := 1

/-- Lookup in `ticket_ranges` by the unique key (`COALESCE(zaal_id,0)` on
both sides of the room comparison, as in the SQL). -/
def findTicketRange (l : List TicketRange) (speelweek_id film_id : Int)
    (zaal_id : Option Int) : Option TicketRange :=
  l.find? (fun tr => tr.speelweek_id == speelweek_id && tr.film_id == film_id &&
    coalesce0 tr.zaal_id == coalesce0 zaal_id)

/-- The JOIN of `ticket_ranges` with `speelweek` restricted to the given
film and room and to weeks with `start_datum` strictly before the current
week's. -/
def prevCandidates (st : DBState) (film_id : Int) (zaal_id : Option Int)
    (start_datum : Int) : List (TicketRange × Speelweek) :=
  st.ticket_ranges.filterMap (fun tr =>
    if tr.film_id == film_id && coalesce0 tr.zaal_id == coalesce0 zaal_id then
      match st.speelweek.find? (fun sw => sw.id == tr.speelweek_id) with
      | some sw => if sw.start_datum < start_datum then some (tr, sw) else none
      | none => none
    else none)

/-- SQL `ORDER BY sw2.start_datum DESC LIMIT 1`: the candidate with the latest
week start (first in table order among equal starts). -/
def pickLatest : List (TicketRange × Speelweek) → Option (TicketRange × Speelweek)
  | [] => none
  | x :: rest =>
    match pickLatest rest with
    | none => some x
    | some y => if y.2.start_datum > x.2.start_datum then some y else some x

/-- Source `_insert_ticket_range`. -/
def insert_ticket_range (st : DBState) (speelweek_id film_id : Int)
    (zaal_id : Option Int) (begin_volw begin_kind : Int) : DBState :=
  { st with ticket_ranges := st.ticket_ranges ++
      [⟨speelweek_id, film_id, zaal_id, begin_volw, begin_kind⟩] }

/-- Source `db_get_or_create_ticket_range`: an existing range for the key is
returned verbatim; with a dangling `speelweek_id` the global counters are
used and the counter-advance step is skipped (early return); otherwise
the chronologically latest prior range of the same film+room determines
the new begin numbers via that week's realized paid quantities, falling
back to the global counters, and the global counters are then advanced to
the max of their current value and the new begins. -/
def db_get_or_create_ticket_range (st : DBState) (speelweek_id film_id : Int)
    (zaal_id : Option Int) : (Int × Int) × DBState :=
  match findTicketRange st.ticket_ranges speelweek_id film_id zaal_id with
  | some row => ((row.begin_volw, row.begin_kind), st)
  | none =>
    match st.speelweek.find? (fun sw => sw.id == speelweek_id) with
    | none =>
      let rv := db_get_int_setting st "ticket_counter_volw" DEFAULT_TICKET_COUNTER_VOLW
      let rk := db_get_int_setting rv.2 "ticket_counter_kind" DEFAULT_TICKET_COUNTER_KIND
      ((rv.1, rk.1), insert_ticket_range rk.2 speelweek_id film_id zaal_id rv.1 rk.1)
    | some sw =>
      let res :=
        match pickLatest (prevCandidates st film_id zaal_id sw.start_datum) with
        | some prev =>
          let q := db_sum_paid_qty_for_speelweek st prev.1.speelweek_id film_id zaal_id
          ((calc_ticket_end prev.1.begin_volw q.1 + 1,
            calc_ticket_end prev.1.begin_kind q.2 + 1), st)
        | none =>
          let rv := db_get_int_setting st "ticket_counter_volw" DEFAULT_TICKET_COUNTER_VOLW
          let rk := db_get_int_setting rv.2 "ticket_counter_kind" DEFAULT_TICKET_COUNTER_KIND
          ((rv.1, rk.1), rk.2)
      let new_begin_volw := res.1.1
      let new_begin_kind := res.1.2
      let st2 := insert_ticket_range res.2 speelweek_id film_id zaal_id
        new_begin_volw new_begin_kind
      let cv := db_get_int_setting st2 "ticket_counter_volw" 1
      let st3 := db_set_int_setting cv.2 "ticket_counter_volw" (max cv.1 new_begin_volw)
      let ck := db_get_int_setting st3 "ticket_counter_kind" 1
      let st4 := db_set_int_setting ck.2 "ticket_counter_kind" (max ck.1 new_begin_kind)
      ((new_begin_volw, new_begin_kind), st4)

/-! ## Financial statement calculator -/

/-- One week row consumed by `generate_borderel_bo1_pdf` (the financial
columns of a joined daily-sales row). -/
structure BorderelRow where
  aantal_volw : Int
  aantal_kind : Int
  gratis_volw : Int
  gratis_kind : Int
  bedrag_volw : Rat
  bedrag_kind : Rat
deriving DecidableEq

/-- The derived financial figures computed in `generate_borderel_bo1_pdf`
before any rendering. -/
structure BorderelTotals where
  volw_qty : Int
  kind_qty : Int
  volw_amt : Rat
  kind_amt : Rat
  gratis_volw : Int
  gratis_kind : Int
  gratis_total : Int
  gross_total : Rat
  tickets_total : Int
  btw_total : Rat
  netto_total : Rat
  auteurs_total : Rat
  verschil : Rat
  volw_price : Rat
  kind_price : Rat
deriving DecidableEq

/-- The aggregation and derivation block of `generate_borderel_bo1_pdf`:
sums over the week rows, gross/VAT/net/author/difference, and guarded
unit prices (Python truthiness: a quantity of 0 yields price 0.0). -/
def borderel_totals (week_rows : List BorderelRow) (btw_rate auteurs_rate : Rat) :
    BorderelTotals :=
  let volw_qty := (week_rows.map (fun r => r.aantal_volw)).sum
  let kind_qty := (week_rows.map (fun r => r.aantal_kind)).sum
  let volw_amt := (week_rows.map (fun r => r.bedrag_volw)).sum
  let kind_amt := (week_rows.map (fun r => r.bedrag_kind)).sum
  let gratis_volw := (week_rows.map (fun r => r.gratis_volw)).sum
  let gratis_kind := (week_rows.map (fun r => r.gratis_kind)).sum
  let gross_total := volw_amt + kind_amt
  let tickets_total := volw_qty + kind_qty
  let btw_total := gross_total * btw_rate
  let netto_total := gross_total - btw_total
  let auteurs_total := netto_total * auteurs_rate
  let verschil := netto_total - auteurs_total
  let volw_price := if volw_qty ≠ 0 then volw_amt / (volw_qty : Rat) else 0
  let kind_price := if kind_qty ≠ 0 then kind_amt / (kind_qty : Rat) else 0
  ⟨volw_qty, kind_qty, volw_amt, kind_amt, gratis_volw, gratis_kind,
    gratis_volw + gratis_kind, gross_total, tickets_total, btw_total, netto_total,
    auteurs_total, verschil, volw_price, kind_price⟩

/-- The unit price computed at CSV import time (`open_csv`): `none`
(Python `None`) when the paid quantity is not positive. -/
def csv_unit_price (bedrag : Rat) (aantal : Int) : Option Rat :=
  if aantal > 0 then some (bedrag / (aantal : Rat)) else none

/-! ## Rate parsing and settings save -/

/-- Drop every occurrence of `c` (Python `str.replace(c, "")`). -/
def removeAllCh (c : Char) (l : List Char) : List Char :=
  l.filter (fun x => x ≠ c)

/-- Replace every occurrence of `a` by `b` (Python `str.replace(a, b)`). -/
def replaceAllCh (a b : Char) (l : List Char) : List Char :=
  l.map (fun x => if x = a then b else x)

/-- Split at the first character satisfying `p`; the second component is
`none` when no such character occurs. -/
def splitFirst (p : Char → Bool) : List Char → List Char × Option (List Char)
  | [] => ([], none)
  | c :: rest =>
    if p c then ([], some rest)
    else
      let r := splitFirst p rest
      (c :: r.1, r.2)

/-- Scale by a signed power of ten. -/
def applyExp (q : Rat) (e : Int) : Rat :=
  if 0 ≤ e then q * (10 : Rat) ^ e.toNat else q / (10 : Rat) ^ (-e).toNat

/-- Model of Python's `float(s)` on finite decimal notation: optional
sign, digits with an optional decimal point (at least one digit), and an
optional signed exponent; surrounding whitespace is stripped.  `none`
models the `ValueError`.  (The `inf`/`nan` literals and digit-group
underscores are out of scope.) -/
def parseFloatChars (l : List Char) : Option Rat :=
  let l1 := stripChars l
  let sgn : Bool × List Char :=
    match l1 with
    | '-' :: rest => (true, rest)
    | '+' :: rest => (false, rest)
    | _ => (false, l1)
  let me := splitFirst (fun c => c = 'e' || c = 'E') sgn.2
  let ip_fp := splitFirst (fun c => c = '.') me.1
  let ip := ip_fp.1
  let fp := (ip_fp.2).getD []
  if ip.all isDigitCh ∧ fp.all isDigitCh ∧ (ip ++ fp) ≠ [] then
    let mantVal : Rat := (digitsVal (ip ++ fp) : Rat) / (10 : Rat) ^ fp.length
    let signed := if sgn.1 then -mantVal else mantVal
    match me.2 with
    | none => some signed
    | some ex =>
      let esgn : Bool × List Char :=
        match ex with
        | '-' :: rest => (true, rest)
        | '+' :: rest => (false, rest)
        | _ => (false, ex)
      if esgn.2 ≠ [] ∧ (esgn.2).all isDigitCh then
        let e : Int := if esgn.1 then -(digitsVal esgn.2 : Int) else (digitsVal esgn.2 : Int)
        some (applyExp signed e)
      else none
  else none

/-- Source `_parse_percent_to_rate`: strip, remove every `%`, turn commas into
dots, parse as a float and divide by 100; `none` models the exception on
invalid input. -/
def parse_percent_to_rate (s : String) : Option Rat :=
  (parseFloatChars (replaceAllCh ',' '.' (removeAllCh '%' (stripChars s.data)))).map
    (fun p => p / 100)

/-- Source `LABEL_TO_WEEKDAY.get(lbl, 1)`: Dutch weekday labels to 0..6,
defaulting to 1. -/
def LABEL_TO_WEEKDAY (lbl : String) : Int :=
  if lbl = "Maandag" then 0
  else if lbl = "Dinsdag" then 1
  else if lbl = "Woensdag" then 2
  else if lbl = "Donderdag" then 3
  else if lbl = "Vrijdag" then 4
  else if lbl = "Zaterdag" then 5
  else if lbl = "Zondag" then 6
  else 1

/-- The stored text of a float setting.  (A decimal rendering stands in
for Python's `str(float)`; no claim reads the text back.) -/
def ratSettingStr (q : Rat) : String :=
  String.mk (intChars q.num ++ ['/'] ++ intChars (q.den : Int))

/-- Source `db_set_float_setting`. -/
def db_set_float_setting (st : DBState) (key : String) (value : Rat) : DBState :=
  db_set_setting st key (ratSettingStr value)

/-- Outcome of `SumUpFilmApp.save_settings` (which validation error box
was shown, if any). -/
inductive SettingsSaveResult where
  | ok : SettingsSaveResult
  | badWeekCounter : SettingsSaveResult
  | badRates : SettingsSaveResult
  | badTickets : SettingsSaveResult
deriving DecidableEq

/-- Source `SumUpFilmApp.save_settings`: the weekday is persisted first; the
week counter is validated and persisted; then both rates are parsed and
checked non-negative and the ticket start numbers validated, and only
after all validation passes are the two rates and the two ticket counters
persisted.  Any validation failure returns before those writes. -/
def save_settings (st : DBState) (weekday_lbl week_counter_s btw_s aut_s tv_s tk_s : String) :
    SettingsSaveResult × DBState :=
  let ws := LABEL_TO_WEEKDAY weekday_lbl
  let st1 := db_set_setting st "week_start_weekday" (pyStrOfInt ws)
  match pyIntOfStr week_counter_s with
  | none => (SettingsSaveResult.badWeekCounter, st1)
  | some wc =>
    if wc < 1 then (SettingsSaveResult.badWeekCounter, st1)
    else
      let st2 := db_set_setting st1 "week_counter" (pyStrOfInt wc)
      match parse_percent_to_rate btw_s, parse_percent_to_rate aut_s with
      | some btw_rate, some aut_rate =>
        if btw_rate < 0 ∨ aut_rate < 0 then (SettingsSaveResult.badRates, st2)
        else
          match pyIntOfStr tv_s, pyIntOfStr tk_s with
          | some tv, some tkid =>
            if tv < 1 ∨ tkid < 1 then (SettingsSaveResult.badTickets, st2)
            else
              let st3 := db_set_float_setting st2 "btw_rate" btw_rate
              let st4 := db_set_float_setting st3 "auteurs_rate" aut_rate
              let st5 := db_set_int_setting st4 "ticket_counter_volw" tv
              let st6 := db_set_int_setting st5 "ticket_counter_kind" tkid
              (SettingsSaveResult.ok, st6)
          | _, _ => (SettingsSaveResult.badTickets, st2)
      | _, _ => (SettingsSaveResult.badRates, st2)

/-! ## Sequencing helper for week creation -/

/-- Run `db_get_or_create_speelweek` over a list of dates in order,
collecting the returned `(id, week_number)` pairs. -/
def runCreates : DBState → List Int → Option (List (Int × Int) × DBState)
  | st, [] => some ([], st)
  | st, d :: ds =>
    match db_get_or_create_speelweek st d with
    | none => none
    | some r =>
      match runCreates r.2 ds with
      | none => none
      | some rs => some (r.1 :: rs.1, rs.2)

/-- The arithmetic progression `k, k+1, ..., k+n-1`. -/
def weekNums (k : Int) : Nat → List Int
  | 0 => []
  | n + 1 => k :: weekNums (k + 1) n

/-- A minimal concrete database state used to instantiate theorems:
only the weekday setting (Tuesday) is stored, the tables are empty. -/
def witnessState : DBState :=
  { settings := [("week_start_weekday", "1")], speelweek := [], daily_sales := [],
    ticket_ranges := [], next_speelweek_id := 1 }

/-- The two-consecutive-runs configuration of the continuity claim:
weeks A and B for one film+room (B chronologically later), a persisted
ticket range for week A only, arbitrary daily sales and settings. -/
def continuityState (idA idB wnA wnB f : Int) (z : Option Int)
    (bv bk sa ea sb eb nid : Int) (ds : List DailySales)
    (s : List (String × String)) : DBState :=
  { settings := s,
    speelweek := [⟨idA, wnA, sa, ea⟩, ⟨idB, wnB, sb, eb⟩],
    daily_sales := ds,
    ticket_ranges := [⟨idA, f, z, bv, bk⟩],
    next_speelweek_id := nid }

/-! ## End of definitions; theorems follow -/

/-! ### Round-trip: `int(str(n)) = n` -/

theorem digitsVal_append_singleton (l : List Char) (c : Char) :
    digitsVal (l ++ [c]) = digitsVal l * 10 + (c.toNat - 48) := by
  simp [digitsVal, List.foldl_append]

theorem digChar_toNat {d : Nat} (h : d < 10) : (digChar d).toNat = 48 + d := by
  interval_cases d <;> rfl

theorem digChar_isDigit {d : Nat} (h : d < 10) : isDigitCh (digChar d) = true := by
  interval_cases d <;> rfl

theorem digChar_not_ws {d : Nat} (h : d < 10) : isWsCh (digChar d) = false := by
  interval_cases d <;> rfl

theorem natDigitsFuel_val (fuel : Nat) :
    ∀ n, n ≤ fuel → digitsVal (natDigitsFuel fuel n) = n := by
  induction fuel with
  | zero => intro n h; interval_cases n; rfl
  | succ fuel ih =>
    intro n h
    by_cases h0 : n = 0
    · subst h0; rfl
    · have hdiv : n / 10 ≤ fuel := by omega
      have hlt : n % 10 < 10 := Nat.mod_lt _ (by omega)
      simp only [natDigitsFuel, h0, if_false]
      rw [digitsVal_append_singleton, ih _ hdiv, digChar_toNat hlt]
      omega

theorem natDigitsFuel_all_digits (fuel : Nat) :
    ∀ n, (natDigitsFuel fuel n).all isDigitCh = true := by
  induction fuel with
  | zero => intro n; rfl
  | succ fuel ih =>
    intro n
    by_cases h0 : n = 0
    · subst h0; rfl
    · have hlt : n % 10 < 10 := Nat.mod_lt _ (by omega)
      simp only [natDigitsFuel, h0, if_false, List.all_append, List.all_cons, List.all_nil,
        Bool.and_eq_true]
      exact ⟨ih _, digChar_isDigit hlt, trivial⟩

theorem natChars_all_digits (n : Nat) : (natChars n).all isDigitCh = true := by
  by_cases h0 : n = 0
  · subst h0; rfl
  · simp only [natChars, h0, if_false]
    exact natDigitsFuel_all_digits n n

theorem natChars_ne_nil (n : Nat) : natChars n ≠ [] := by
  by_cases h0 : n = 0
  · subst h0; simp [natChars]
  · have : natDigitsFuel n n ≠ [] := by
      cases n with
      | zero => omega
      | succ m => simp [natDigitsFuel, h0]
    simpa [natChars, h0]

theorem natChars_val (n : Nat) : digitsVal (natChars n) = n := by
  by_cases h0 : n = 0
  · subst h0; rfl
  · simp only [natChars, h0, if_false]
    exact natDigitsFuel_val n n le_rfl

theorem parseNatChars_natChars (n : Nat) :
    parseNatChars (natChars n) = some n := by
  simp [parseNatChars, natChars_ne_nil, natChars_all_digits, natChars_val]

theorem not_ws_of_digit {c : Char} (h : isDigitCh c = true) : isWsCh c = false := by
  by_contra hws
  rw [Bool.not_eq_false] at hws
  simp only [isWsCh, Bool.or_eq_true, decide_eq_true_eq] at hws
  rcases hws with ((h1 | h1) | h1) | h1 <;> subst h1 <;> exact absurd h (by decide)

theorem dropWhile_eq_self_of_not {p : Char → Bool} (l : List Char)
    (h : ∀ c ∈ l, p c = false) : l.dropWhile p = l := by
  cases l with
  | nil => rfl
  | cons c rest => simp [List.dropWhile_cons, h c (List.mem_cons_self c rest)]

theorem stripChars_eq_self (l : List Char) (h : ∀ c ∈ l, isWsCh c = false) :
    stripChars l = l := by
  unfold stripChars
  rw [dropWhile_eq_self_of_not l h, dropWhile_eq_self_of_not l.reverse
    (fun c hc => h c (List.mem_reverse.mp hc)), List.reverse_reverse]

theorem intChars_no_ws (n : Int) : ∀ c ∈ intChars n, isWsCh c = false := by
  intro c hc
  unfold intChars at hc
  split at hc
  · rcases List.mem_cons.mp hc with h | h
    · subst h; rfl
    · exact not_ws_of_digit (by
        have := natChars_all_digits n.natAbs
        rw [List.all_eq_true] at this
        exact this c h)
  · exact not_ws_of_digit (by
      have := natChars_all_digits n.toNat
      rw [List.all_eq_true] at this
      exact this c hc)

theorem digit_head_not_sign {c : Char} (h : isDigitCh c = true) :
    c ≠ '-' ∧ c ≠ '+' := by
  constructor <;> intro hc <;> subst hc <;> exact absurd h (by decide)

theorem parseIntChars_digits (l : List Char) (hne : l ≠ [])
    (hd : l.all isDigitCh = true) :
    parseIntChars l = some ((digitsVal l : Nat) : Int) := by
  cases l with
  | nil => exact absurd rfl hne
  | cons c rest =>
    have hc : isDigitCh c = true := by
      rw [List.all_eq_true] at hd
      exact hd c (List.mem_cons_self c rest)
    obtain ⟨h1, h2⟩ := digit_head_not_sign hc
    simp only [parseIntChars, h1, h2, if_false]
    rw [show parseNatChars (c :: rest) = some (digitsVal (c :: rest)) from by
      simp [parseNatChars, hd]]
    rfl

/-- Round-trip: the model of `int(str(n))` returns `n`. -/
theorem pyIntOfStr_pyStrOfInt (n : Int) : pyIntOfStr (pyStrOfInt n) = some n := by
  unfold pyIntOfStr pyStrOfInt
  rw [show (String.mk (intChars n)).data = intChars n from rfl,
    stripChars_eq_self _ (intChars_no_ws n)]
  by_cases hneg : n < 0
  · simp only [intChars, hneg, if_true]
    rw [show parseIntChars ('-' :: natChars n.natAbs) =
        (parseNatChars (natChars n.natAbs)).map (fun m => -(Int.ofNat m)) from by
      simp [parseIntChars]]
    rw [parseNatChars_natChars]
    rw [show (some n.natAbs).map (fun m => -(Int.ofNat m)) = some (-(Int.ofNat n.natAbs)) from
      rfl]
    rw [Option.some.injEq]
    show -(n.natAbs : Int) = n
    omega
  · simp only [intChars, hneg, if_false]
    rw [parseIntChars_digits _ (natChars_ne_nil _) (natChars_all_digits _), natChars_val]
    rw [Option.some.injEq]
    omega
/-! ## Settings-store lemmas -/

theorem find?_setAssoc_same (l : List (String × String)) (k v : String) :
    (setAssoc l k v).find? (fun kv => kv.1 = k) = some (k, v) := by
  induction l with
  | nil => simp [setAssoc, List.find?]
  | cons kv rest ih =>
    by_cases h : kv.1 = k
    · simp [setAssoc, h, List.find?]
    · simp only [setAssoc, h, if_false]
      rw [List.find?_cons_of_neg _ (by simpa using h)]
      exact ih

theorem find?_setAssoc_other (l : List (String × String)) (k v k' : String)
    (h : k ≠ k') :
    (setAssoc l k v).find? (fun kv => kv.1 = k') = l.find? (fun kv => kv.1 = k') := by
  induction l with
  | nil => simp [setAssoc, List.find?, h]
  | cons kv rest ih =>
    by_cases hk : kv.1 = k
    · subst hk
      simp [setAssoc, List.find?, h]
    · simp only [setAssoc, hk, if_false]
      by_cases hk' : kv.1 = k'
      · rw [List.find?_cons_of_pos _ (by simpa using hk'),
          List.find?_cons_of_pos _ (by simpa using hk')]
      · rw [List.find?_cons_of_neg _ (by simpa using hk'),
          List.find?_cons_of_neg _ (by simpa using hk')]
        exact ih

theorem db_get_setting_set_same (st : DBState) (k v : String) :
    db_get_setting (db_set_setting st k v) k = some v := by
  simp [db_get_setting, db_set_setting, find?_setAssoc_same]

theorem db_get_setting_set_other (st : DBState) (k v k' : String) (h : k ≠ k') :
    db_get_setting (db_set_setting st k v) k' = db_get_setting st k' := by
  simp [db_get_setting, db_set_setting, find?_setAssoc_other _ _ _ _ h]

/-! ## C3: week-bounds invariant -/

/-- C3.  Week-bounds invariant: for every date `d` and every
`start_weekday ∈ [0, 6]`, `speelweek_range d start_weekday` returns
`(start, end)` with `start = d - ((weekday d - start_weekday) mod 7)`,
`end = start + 7`, the weekday of `start` equal to `start_weekday`, and
`d` in the half-open interval `[start, end)`. -/
theorem speelweek_range_bounds (d ws : Int) (h0 : 0 ≤ ws) (h6 : ws ≤ 6) :
    (speelweek_range d ws).1 = d - (pyWeekday d - ws) % 7 ∧
    (speelweek_range d ws).2 = (speelweek_range d ws).1 + 7 ∧
    pyWeekday (speelweek_range d ws).1 = ws ∧
    (speelweek_range d ws).1 ≤ d ∧ d < (speelweek_range d ws).2 := by
  refine ⟨?_, ?_, ?_, ?_, ?_⟩ <;> simp only [speelweek_range, pyWeekday] <;> omega

/-- Witness for C3 at a concrete input: day 4 (a Friday) with week start
Tuesday (1) yields the window `[1, 8)` starting on the Tuesday, day 1. -/
theorem speelweek_range_bounds_witness :
    (0 : Int) ≤ 1 ∧ (1 : Int) ≤ 6 ∧
    ((speelweek_range 4 1).1 = 4 - (pyWeekday 4 - 1) % 7 ∧
     (speelweek_range 4 1).2 = (speelweek_range 4 1).1 + 7 ∧
     pyWeekday (speelweek_range 4 1).1 = 1 ∧
     (speelweek_range 4 1).1 ≤ 4 ∧ (4 : Int) < (speelweek_range 4 1).2) :=
  ⟨by decide, by decide, speelweek_range_bounds 4 1 (by decide) (by decide)⟩

theorem weekStartIs_default (st0 : DBState) :
    weekStartIs (db_set_setting st0 "week_start_weekday" "1") 1 :=
  ⟨"1", db_get_setting_set_same _ _ _, by decide, by decide, by decide⟩

theorem getter_of_weekStartIs {st : DBState} {ws : Int} (h : weekStartIs st ws) :
    db_get_week_start_weekday st = (ws, st) := by
  obtain ⟨v, hv, hp, h0, h6⟩ := h
  unfold db_get_week_start_weekday
  rw [hv]
  simp only [Option.some_bind]
  rw [hp]
  simp [h0, h6]

theorem week_start_getter_stable (st : DBState) :
    weekStartIs (db_get_week_start_weekday st).2 (db_get_week_start_weekday st).1 := by
  unfold db_get_week_start_weekday
  cases hv : (db_get_setting st "week_start_weekday").bind pyIntOfStr with
  | none => exact weekStartIs_default st
  | some n =>
    by_cases hr : 0 ≤ n ∧ n ≤ 6
    · simp only [hr, if_true]
      cases hg : db_get_setting st "week_start_weekday" with
      | none => rw [hg] at hv; cases hv
      | some v =>
        rw [hg] at hv
        simp only [Option.some_bind] at hv
        exact ⟨v, hg, hv, hr.1, hr.2⟩
    · simp only [hr, if_false]
      exact weekStartIs_default st

theorem weekStartIs_of_set_other {st : DBState} {ws : Int} (h : weekStartIs st ws)
    (k v : String) (hk : k ≠ "week_start_weekday") :
    weekStartIs (db_set_setting st k v) ws := by
  obtain ⟨s, hs, hp, h0, h6⟩ := h
  exact ⟨s, by rw [db_get_setting_set_other _ _ _ _ hk]; exact hs, hp, h0, h6⟩

/-- Specification of the create branch of `db_get_or_create_speelweek`:
with a valid weekday setting, a counter reading `k`, and no existing week
with the computed bounds, the call returns the fresh id with week number
`k`, appends exactly the new week, and persists the counter as `k + 1`. -/
theorem create_speelweek_spec (st : DBState) (d ws k : Int)
    (hws : weekStartIs st ws)
    (hk : weekCounterRead st = some k)
    (habs : st.speelweek.find? (fun sw =>
      sw.start_datum == (speelweek_range d ws).1 &&
      sw.eind_datum == (speelweek_range d ws).2) = none) :
    ∃ st', db_get_or_create_speelweek st d = some ((st.next_speelweek_id, k), st') ∧
      st'.speelweek = st.speelweek ++
        [⟨st.next_speelweek_id, k, (speelweek_range d ws).1, (speelweek_range d ws).2⟩] ∧
      st'.daily_sales = st.daily_sales ∧
      st'.ticket_ranges = st.ticket_ranges ∧
      st'.next_speelweek_id = st.next_speelweek_id + 1 ∧
      db_get_setting st' "week_counter" = some (pyStrOfInt (k + 1)) ∧
      db_get_setting st' "week_start_weekday" = db_get_setting st "week_start_weekday" := by
  unfold db_get_or_create_speelweek
  rw [getter_of_weekStartIs hws]
  simp only []
  rw [habs]
  unfold weekCounterRead at hk
  cases hv : db_get_setting st "week_counter" with
  | none =>
    rw [hv] at hk
    simp only [] at hk
    injection hk with hk1
    subst hk1
    simp only []
    rw [show pyIntOfStr "1" = some 1 from by decide]
    simp only []
    refine ⟨_, rfl, ?_, ?_, ?_, ?_, ?_, ?_⟩
    · simp [db_set_setting]
    · simp [db_set_setting]
    · simp [db_set_setting]
    · simp [db_set_setting]
    · exact db_get_setting_set_same _ _ _
    · rw [db_get_setting_set_other _ _ _ _ (by decide)]
      show db_get_setting (db_set_setting st "week_counter" "1") "week_start_weekday" =
        db_get_setting st "week_start_weekday"
      exact db_get_setting_set_other _ _ _ _ (by decide)
  | some v =>
    rw [hv] at hk
    simp only [] at hk
    simp only []
    rw [hk]
    simp only []
    refine ⟨_, rfl, ?_, ?_, ?_, ?_, ?_, ?_⟩
    · simp [db_set_setting]
    · simp [db_set_setting]
    · simp [db_set_setting]
    · simp [db_set_setting]
    · exact db_get_setting_set_same _ _ _
    · rw [db_get_setting_set_other _ _ _ _ (by decide)]
      rfl

/-! ## C4: sequential week-number allocation -/

theorem weekNums_length (k : Int) (n : Nat) : (weekNums k n).length = n := by
  induction n generalizing k with
  | zero => rfl
  | succ n ih => simp [weekNums, ih]

/-- Entry `i` of `weekNums k n` is `k + i`: the list really is
`k, k+1, ..., k+n-1`. -/
theorem weekNums_get (k : Int) (n i : Nat) (h : i < n) :
    (weekNums k n).get ⟨i, by rw [weekNums_length]; exact h⟩ = k + i := by
  induction n generalizing k i with
  | zero => omega
  | succ n ih =>
    cases i with
    | zero => simp [weekNums]
    | succ i =>
      have hstep := ih (k + 1) i (by omega)
      simp only [weekNums, List.get_cons_succ]
      rw [hstep]
      push_cast
      ring

/-- Induction core for C4: starting from a valid weekday setting, a
counter reading `k`, and dates whose week bounds are pairwise distinct
and absent from the table, the successive creations return the week
numbers `k, k+1, ..., k+N-1`. -/
theorem runCreates_weeknummers (ds : List Int) :
    ∀ (st : DBState) (ws k : Int),
    weekStartIs st ws →
    weekCounterRead st = some k →
    (∀ d ∈ ds, ∀ sw ∈ st.speelweek,
      ¬(sw.start_datum = (speelweek_range d ws).1 ∧
        sw.eind_datum = (speelweek_range d ws).2)) →
    ds.Pairwise (fun d d' => speelweek_range d ws ≠ speelweek_range d' ws) →
    ∃ rs st', runCreates st ds = some (rs, st') ∧
      rs.map Prod.snd = weekNums k ds.length := by
  induction ds with
  | nil => intro st ws k _ _ _ _; exact ⟨[], st, rfl, rfl⟩
  | cons d ds ih =>
    intro st ws k hws hk habs hpw
    have hfind : st.speelweek.find? (fun sw =>
        sw.start_datum == (speelweek_range d ws).1 &&
        sw.eind_datum == (speelweek_range d ws).2) = none := by
      rw [List.find?_eq_none]
      intro sw hsw
      have hne := habs d (List.mem_cons_self _ _) sw hsw
      simp only [Bool.and_eq_true, beq_iff_eq]
      tauto
    obtain ⟨st1, hcall, hsw1, hds1, htr1, hnid1, hwc1, hwsk1⟩ :=
      create_speelweek_spec st d ws k hws hk hfind
    have hws1 : weekStartIs st1 ws := by
      obtain ⟨v, hv, hp, h0, h6⟩ := hws
      exact ⟨v, by rw [hwsk1]; exact hv, hp, h0, h6⟩
    have hk1 : weekCounterRead st1 = some (k + 1) := by
      unfold weekCounterRead
      rw [hwc1]
      exact pyIntOfStr_pyStrOfInt (k + 1)
    have habs1 : ∀ x ∈ ds, ∀ sw ∈ st1.speelweek,
        ¬(sw.start_datum = (speelweek_range x ws).1 ∧
          sw.eind_datum = (speelweek_range x ws).2) := by
      intro x hx sw hsw
      rw [hsw1] at hsw
      rcases List.mem_append.mp hsw with hmem | hmem
      · exact habs x (List.mem_cons_of_mem _ hx) sw hmem
      · rw [List.mem_singleton] at hmem
        subst hmem
        have hne := (List.pairwise_cons.mp hpw).1 x hx
        rintro ⟨h1, h2⟩
        have h1' : (speelweek_range d ws).1 = (speelweek_range x ws).1 := h1
        have h2' : (speelweek_range d ws).2 = (speelweek_range x ws).2 := h2
        exact hne (Prod.ext h1' h2')
    obtain ⟨rs, st2, hrun, hmap⟩ := ih st1 ws (k + 1) hws1 hk1 habs1
      (List.pairwise_cons.mp hpw).2
    refine ⟨(st.next_speelweek_id, k) :: rs, st2, ?_, ?_⟩
    · unfold runCreates
      rw [hcall]
      simp only []
      rw [hrun]
    · simp only [List.map_cons, hmap, List.length_cons, weekNums]

/-- C4.  Week-number sequential allocation: when `get_or_create_speelweek`
finds no existing speelweek with the computed bounds it assigns the
current value `k` of the persisted `week_counter` setting (1 when unset)
as the week number, inserts the new speelweek, and persists the counter
as `k + 1`; consequently creating the weeks of `d :: ds` (all bounds
fresh and pairwise distinct) in sequence yields the week numbers
`k, k+1, ..., k+N-1`. -/
theorem speelweek_week_number_allocation (st : DBState) (ws k d : Int) (ds : List Int)
    (hws : weekStartIs st ws) (hk : weekCounterRead st = some k)
    (habs : ∀ x ∈ d :: ds, ∀ sw ∈ st.speelweek,
      ¬(sw.start_datum = (speelweek_range x ws).1 ∧
        sw.eind_datum = (speelweek_range x ws).2))
    (hpw : (d :: ds).Pairwise (fun x y => speelweek_range x ws ≠ speelweek_range y ws)) :
    (∃ st1, db_get_or_create_speelweek st d = some ((st.next_speelweek_id, k), st1) ∧
      (⟨st.next_speelweek_id, k, (speelweek_range d ws).1,
        (speelweek_range d ws).2⟩ : Speelweek) ∈ st1.speelweek ∧
      db_get_setting st1 "week_counter" = some (pyStrOfInt (k + 1))) ∧
    (∃ rs st', runCreates st (d :: ds) = some (rs, st') ∧
      rs.map Prod.snd = weekNums k (d :: ds).length) := by
  have hfind : st.speelweek.find? (fun sw =>
      sw.start_datum == (speelweek_range d ws).1 &&
      sw.eind_datum == (speelweek_range d ws).2) = none := by
    rw [List.find?_eq_none]
    intro sw hsw
    have hne := habs d (List.mem_cons_self _ _) sw hsw
    simp only [Bool.and_eq_true, beq_iff_eq]
    tauto
  obtain ⟨st1, hcall, hsw1, _, _, _, hwc1, _⟩ :=
    create_speelweek_spec st d ws k hws hk hfind
  refine ⟨⟨st1, hcall, ?_, hwc1⟩, runCreates_weeknummers (d :: ds) st ws k hws hk habs hpw⟩
  rw [hsw1]
  exact List.mem_append.mpr (Or.inr (List.mem_singleton.mpr rfl))

/-- Witness for C4 at a concrete input: an empty database with week
start Tuesday and an unset counter; creating the weeks of days 4 and 8
yields week numbers 1 and 2. -/
theorem speelweek_week_number_allocation_witness :
    (∃ st1, db_get_or_create_speelweek witnessState 4 =
        some ((witnessState.next_speelweek_id, 1), st1) ∧
      (⟨witnessState.next_speelweek_id, 1, (speelweek_range 4 1).1,
        (speelweek_range 4 1).2⟩ : Speelweek) ∈ st1.speelweek ∧
      db_get_setting st1 "week_counter" = some (pyStrOfInt (1 + 1))) ∧
    (∃ rs st', runCreates witnessState [4, 8] = some (rs, st') ∧
      rs.map Prod.snd = weekNums 1 [4, 8].length) :=
  speelweek_week_number_allocation witnessState 1 1 4 [8]
    ⟨"1", by decide, by decide, by decide, by decide⟩
    (by decide)
    (by simp [witnessState])
    (by decide)

/-! ## C5: week get-or-create idempotence -/

/-- The first thing `db_get_or_create_speelweek` does is run the weekday
getter, whose only effect is to repair the weekday setting; running the
operation on the repaired state gives the same answer. -/
theorem get_or_create_speelweek_absorb (st : DBState) (d : Int) :
    db_get_or_create_speelweek (db_get_week_start_weekday st).2 d =
      db_get_or_create_speelweek st d := by
  conv_lhs => unfold db_get_or_create_speelweek
  conv_rhs => unfold db_get_or_create_speelweek
  rw [getter_of_weekStartIs (week_start_getter_stable st)]

/-- Core of C5, for a state whose weekday setting is already valid. -/
theorem speelweek_idem_core (st : DBState) (ws d d2 : Int) (r : Int × Int)
    (st' : DBState) (hws : weekStartIs st ws)
    (h1 : db_get_or_create_speelweek st d = some (r, st'))
    (h2 : speelweek_range d2 ws = speelweek_range d ws) :
    db_get_or_create_speelweek st' d2 = some (r, st') := by
  cases hfind : st.speelweek.find? (fun sw =>
      sw.start_datum == (speelweek_range d ws).1 &&
      sw.eind_datum == (speelweek_range d ws).2) with
  | some row =>
    have hcall : db_get_or_create_speelweek st d =
        some ((row.id, row.weeknummer), st) := by
      unfold db_get_or_create_speelweek
      rw [getter_of_weekStartIs hws]
      simp only []
      rw [hfind]
    rw [hcall] at h1
    rw [Option.some.injEq, Prod.mk.injEq] at h1
    obtain ⟨hr, hst⟩ := h1
    subst hr
    subst hst
    unfold db_get_or_create_speelweek
    rw [getter_of_weekStartIs hws]
    simp only [h2]
    rw [hfind]
  | none =>
    cases hk : weekCounterRead st with
    | none =>
      have hnone : db_get_or_create_speelweek st d = none := by
        unfold db_get_or_create_speelweek
        rw [getter_of_weekStartIs hws]
        simp only []
        rw [hfind]
        unfold weekCounterRead at hk
        cases hg : db_get_setting st "week_counter" with
        | none =>
          rw [hg] at hk
          simp only [] at hk
          exact absurd hk (by decide)
        | some v =>
          rw [hg] at hk
          simp only [] at hk
          simp only []
          rw [hk]
      rw [hnone] at h1
      cases h1
    | some k =>
      obtain ⟨st1, hcall, hsw1, _, _, _, hwc1, hwsk1⟩ :=
        create_speelweek_spec st d ws k hws hk hfind
      rw [hcall] at h1
      rw [Option.some.injEq, Prod.mk.injEq] at h1
      obtain ⟨hr, hst⟩ := h1
      subst hr
      subst hst
      have hws1 : weekStartIs st1 ws := by
        obtain ⟨v, hv, hp, h0, h6⟩ := hws
        exact ⟨v, by rw [hwsk1]; exact hv, hp, h0, h6⟩
      unfold db_get_or_create_speelweek
      rw [getter_of_weekStartIs hws1]
      simp only [h2]
      rw [hsw1, List.find?_append, hfind]
      simp only [List.find?_singleton, Option.none_or]
      rw [if_pos (by simp)]

/-- C5.  Week get-or-create idempotence: when a call of
`get_or_create_speelweek` on date `d` returns `(id, week_number)` with
resulting state `st'`, a second call for any date `d2` mapping to the
same bounds returns the same pair and returns `st'` itself: it neither
inserts a speelweek nor changes the `week_counter` setting (or anything
else). -/
theorem speelweek_get_or_create_idem (st : DBState) (d d2 : Int) (r : Int × Int)
    (st' : DBState)
    (h1 : db_get_or_create_speelweek st d = some (r, st'))
    (h2 : speelweek_range d2 (db_get_week_start_weekday st).1 =
      speelweek_range d (db_get_week_start_weekday st).1) :
    db_get_or_create_speelweek st' d2 = some (r, st') := by
  have h1' : db_get_or_create_speelweek (db_get_week_start_weekday st).2 d =
      some (r, st') := by
    rw [get_or_create_speelweek_absorb]
    exact h1
  exact speelweek_idem_core (db_get_week_start_weekday st).2
    (db_get_week_start_weekday st).1 d d2 r st' (week_start_getter_stable st) h1' h2

/-- Witness for C5 at a concrete input: after creating the week of day 4
(window `[1, 8)`), a second call for day 6 in the same window returns the
same `(id, week_number) = (1, 1)` and the unchanged state. -/
theorem speelweek_get_or_create_idem_witness :
    db_get_or_create_speelweek
      { settings := [("week_start_weekday", "1"), ("week_counter", "2")],
        speelweek := [⟨1, 1, 1, 8⟩], daily_sales := [], ticket_ranges := [],
        next_speelweek_id := 2 } 6 =
      some ((1, 1),
        { settings := [("week_start_weekday", "1"), ("week_counter", "2")],
          speelweek := [⟨1, 1, 1, 8⟩], daily_sales := [], ticket_ranges := [],
          next_speelweek_id := 2 }) :=
  speelweek_get_or_create_idem witnessState 4 6 (1, 1) _ (by decide) (by decide)

/-! ## C1: ticket-range continuity -/

theorem calc_ticket_end_succ (b q : Int) :
    calc_ticket_end b q + 1 = if q > 0 then b + q else b := by
  unfold calc_ticket_end
  split <;> ring

theorem db_set_setting_ticket_ranges (st : DBState) (k v : String) :
    (db_set_setting st k v).ticket_ranges = st.ticket_ranges := rfl

theorem db_set_setting_speelweek (st : DBState) (k v : String) :
    (db_set_setting st k v).speelweek = st.speelweek := rfl

theorem db_set_setting_daily_sales (st : DBState) (k v : String) :
    (db_set_setting st k v).daily_sales = st.daily_sales := rfl

theorem db_set_int_setting_ticket_ranges (st : DBState) (k : String) (v : Int) :
    (db_set_int_setting st k v).ticket_ranges = st.ticket_ranges := rfl

theorem db_set_int_setting_speelweek (st : DBState) (k : String) (v : Int) :
    (db_set_int_setting st k v).speelweek = st.speelweek := rfl

theorem db_set_int_setting_daily_sales (st : DBState) (k : String) (v : Int) :
    (db_set_int_setting st k v).daily_sales = st.daily_sales := rfl

theorem db_get_int_setting_ticket_ranges (st : DBState) (k : String) (dflt : Int) :
    (db_get_int_setting st k dflt).2.ticket_ranges = st.ticket_ranges := by
  unfold db_get_int_setting
  cases db_get_setting st k with
  | none => rfl
  | some v =>
    simp only []
    cases pyIntOfStr v with
    | some n => rfl
    | none => rfl

theorem db_get_int_setting_speelweek (st : DBState) (k : String) (dflt : Int) :
    (db_get_int_setting st k dflt).2.speelweek = st.speelweek := by
  unfold db_get_int_setting
  cases db_get_setting st k with
  | none => rfl
  | some v =>
    simp only []
    cases pyIntOfStr v with
    | some n => rfl
    | none => rfl

theorem db_get_int_setting_daily_sales (st : DBState) (k : String) (dflt : Int) :
    (db_get_int_setting st k dflt).2.daily_sales = st.daily_sales := by
  unfold db_get_int_setting
  cases db_get_setting st k with
  | none => rfl
  | some v =>
    simp only []
    cases pyIntOfStr v with
    | some n => rfl
    | none => rfl

/-- C1.  Ticket-range continuity: film+room with prior week A (range
beginning `bv`/`bk`, realized paid quantities `qv`/`qk` summed over the
daily sales) and later week B without a range: the allocator returns and
persists begins `bv + qv` when `qv > 0` and `bv` when `qv ≤ 0` (that is,
`(bv + qv - 1) + 1`, resp. `(bv - 1) + 1`), independently per stream — a
zero-quantity week advances the numbering by 0. -/
theorem ticket_range_continuity (idA idB wnA wnB f : Int) (z : Option Int)
    (bv bk sa ea sb eb nid : Int) (ds : List DailySales)
    (s : List (String × String))
    (hlt : sa < sb) (hne : idA ≠ idB) :
    (db_get_or_create_ticket_range
        (continuityState idA idB wnA wnB f z bv bk sa ea sb eb nid ds s) idB f z).1 =
      ((if (db_sum_paid_qty_for_speelweek
            (continuityState idA idB wnA wnB f z bv bk sa ea sb eb nid ds s) idA f z).1 > 0
        then bv + (db_sum_paid_qty_for_speelweek
            (continuityState idA idB wnA wnB f z bv bk sa ea sb eb nid ds s) idA f z).1
        else bv),
       (if (db_sum_paid_qty_for_speelweek
            (continuityState idA idB wnA wnB f z bv bk sa ea sb eb nid ds s) idA f z).2 > 0
        then bk + (db_sum_paid_qty_for_speelweek
            (continuityState idA idB wnA wnB f z bv bk sa ea sb eb nid ds s) idA f z).2
        else bk)) ∧
    (⟨idB, f, z,
      (if (db_sum_paid_qty_for_speelweek
            (continuityState idA idB wnA wnB f z bv bk sa ea sb eb nid ds s) idA f z).1 > 0
        then bv + (db_sum_paid_qty_for_speelweek
            (continuityState idA idB wnA wnB f z bv bk sa ea sb eb nid ds s) idA f z).1
        else bv),
      (if (db_sum_paid_qty_for_speelweek
            (continuityState idA idB wnA wnB f z bv bk sa ea sb eb nid ds s) idA f z).2 > 0
        then bk + (db_sum_paid_qty_for_speelweek
            (continuityState idA idB wnA wnB f z bv bk sa ea sb eb nid ds s) idA f z).2
        else bk)⟩ : TicketRange) ∈
      (db_get_or_create_ticket_range
        (continuityState idA idB wnA wnB f z bv bk sa ea sb eb nid ds s) idB f z).2.ticket_ranges := by
  set st := continuityState idA idB wnA wnB f z bv bk sa ea sb eb nid ds s with hst
  have hfr : findTicketRange st.ticket_ranges idB f z = none := by
    rw [hst]
    simp [findTicketRange, continuityState, List.find?_singleton, hne]
  have hfsw : st.speelweek.find? (fun sw => sw.id == idB) =
      some ⟨idB, wnB, sb, eb⟩ := by
    rw [hst]
    simp [continuityState, List.find?_cons, hne]
  have hpc : prevCandidates st f z sb =
      [(⟨idA, f, z, bv, bk⟩, ⟨idA, wnA, sa, ea⟩)] := by
    rw [hst]
    simp [prevCandidates, continuityState, List.find?_cons, hlt]
  unfold db_get_or_create_ticket_range
  rw [hfr]
  simp only []
  rw [hfsw]
  simp only []
  rw [hpc]
  rw [show pickLatest [((⟨idA, f, z, bv, bk⟩ : TicketRange),
    (⟨idA, wnA, sa, ea⟩ : Speelweek))] =
    some (⟨idA, f, z, bv, bk⟩, ⟨idA, wnA, sa, ea⟩) from rfl]
  simp only []
  constructor
  · rw [calc_ticket_end_succ, calc_ticket_end_succ]
  · simp only [db_set_int_setting_ticket_ranges, db_get_int_setting_ticket_ranges,
      insert_ticket_range]
    rw [calc_ticket_end_succ, calc_ticket_end_succ]
    rw [hst]
    simp [continuityState]

/-- Witness for C1 at a concrete input: week A (id 1, window start 0)
sold 37 adult and 2 child tickets with begins 100/50; week B (id 2,
window start 7) is allocated begins 137/52, and the range is persisted. -/
theorem ticket_range_continuity_witness :
    (0 : Int) < 7 ∧ (1 : Int) ≠ 2 ∧
    ((db_get_or_create_ticket_range
        (continuityState 1 2 5 6 10 (some 1) 100 50 0 7 7 14 3
          [⟨3, 1, 10, some 1, false, 37, 2, 0, 0, 100, 10⟩] []) 2 10 (some 1)).1 =
      (137, 52) ∧
    (⟨2, 10, some 1, 137, 52⟩ : TicketRange) ∈
      (db_get_or_create_ticket_range
        (continuityState 1 2 5 6 10 (some 1) 100 50 0 7 7 14 3
          [⟨3, 1, 10, some 1, false, 37, 2, 0, 0, 100, 10⟩] []) 2 10 (some 1)).2.ticket_ranges) := by
  refine ⟨by decide, by decide, ?_⟩
  have h := ticket_range_continuity 1 2 5 6 10 (some 1) 100 50 0 7 7 14 3
    [⟨3, 1, 10, some 1, false, 37, 2, 0, 0, 100, 10⟩] [] (by decide) (by decide)
  exact h

/-! ## C6: ticket-range idempotence -/

/-- C6.  Ticket-range idempotence: when a range row exists for the exact
key, the allocator returns its stored begin numbers verbatim and leaves
the state unchanged; consequently a second call on any state carrying the
same `ticket_ranges` table — the daily-sales quantities may have changed
arbitrarily in between — returns the identical values. -/
theorem ticket_range_idem (st st2 : DBState) (speelweek_id film_id : Int)
    (z : Option Int) (r : TicketRange)
    (hlook : findTicketRange st.ticket_ranges speelweek_id film_id z = some r)
    (htr : st2.ticket_ranges = st.ticket_ranges) :
    db_get_or_create_ticket_range st speelweek_id film_id z =
      ((r.begin_volw, r.begin_kind), st) ∧
    db_get_or_create_ticket_range st2 speelweek_id film_id z =
      ((r.begin_volw, r.begin_kind), st2) := by
  constructor
  · unfold db_get_or_create_ticket_range
    rw [hlook]
  · unfold db_get_or_create_ticket_range
    rw [htr, hlook]

/-- Witness for C6 at a concrete input: a stored range (100, 50) is
returned unchanged by both calls even though the daily-sales table
changed (37 paid adults added) between them. -/
theorem ticket_range_idem_witness :
    db_get_or_create_ticket_range
      { settings := [], speelweek := [⟨1, 5, 0, 7⟩], daily_sales := [],
        ticket_ranges := [⟨1, 10, some 1, 100, 50⟩], next_speelweek_id := 2 } 1 10 (some 1) =
      ((100, 50),
       { settings := [], speelweek := [⟨1, 5, 0, 7⟩], daily_sales := [],
         ticket_ranges := [⟨1, 10, some 1, 100, 50⟩], next_speelweek_id := 2 }) ∧
    db_get_or_create_ticket_range
      { settings := [], speelweek := [⟨1, 5, 0, 7⟩],
        daily_sales := [⟨3, 1, 10, some 1, false, 37, 2, 0, 0, 100, 10⟩],
        ticket_ranges := [⟨1, 10, some 1, 100, 50⟩], next_speelweek_id := 2 } 1 10 (some 1) =
      ((100, 50),
       { settings := [], speelweek := [⟨1, 5, 0, 7⟩],
         daily_sales := [⟨3, 1, 10, some 1, false, 37, 2, 0, 0, 100, 10⟩],
         ticket_ranges := [⟨1, 10, some 1, 100, 50⟩], next_speelweek_id := 2 }) :=
  ticket_range_idem
    { settings := [], speelweek := [⟨1, 5, 0, 7⟩], daily_sales := [],
      ticket_ranges := [⟨1, 10, some 1, 100, 50⟩], next_speelweek_id := 2 }
    { settings := [], speelweek := [⟨1, 5, 0, 7⟩],
      daily_sales := [⟨3, 1, 10, some 1, false, 37, 2, 0, 0, 100, 10⟩],
      ticket_ranges := [⟨1, 10, some 1, 100, 50⟩], next_speelweek_id := 2 }
    1 10 (some 1) ⟨1, 10, some 1, 100, 50⟩ (by decide) (by decide)

/-! ## C10: allocator fallback on a dangling week reference -/

/-- C10.  Dangling week fallback: with no range for the key and no
speelweek row with the given id, the allocator does not fail: it reads
the begin numbers from the `ticket_counter_volw`/`ticket_counter_kind`
settings (persisting the defaults on a first read), persists a range
under the key, and returns those numbers — the result is built from the
settings alone, no prior week's range or daily-sales quantities enter,
and the counter-advance step is skipped (speelweek and daily_sales are
untouched). -/
theorem ticket_range_dangling_week (st : DBState) (speelweek_id film_id : Int)
    (z : Option Int)
    (hnor : findTicketRange st.ticket_ranges speelweek_id film_id z = none)
    (hnosw : st.speelweek.find? (fun sw => sw.id == speelweek_id) = none) :
    db_get_or_create_ticket_range st speelweek_id film_id z =
      (((db_get_int_setting st "ticket_counter_volw" DEFAULT_TICKET_COUNTER_VOLW).1,
        (db_get_int_setting
          (db_get_int_setting st "ticket_counter_volw" DEFAULT_TICKET_COUNTER_VOLW).2
          "ticket_counter_kind" DEFAULT_TICKET_COUNTER_KIND).1),
       insert_ticket_range
         (db_get_int_setting
           (db_get_int_setting st "ticket_counter_volw" DEFAULT_TICKET_COUNTER_VOLW).2
           "ticket_counter_kind" DEFAULT_TICKET_COUNTER_KIND).2
         speelweek_id film_id z
         (db_get_int_setting st "ticket_counter_volw" DEFAULT_TICKET_COUNTER_VOLW).1
         (db_get_int_setting
           (db_get_int_setting st "ticket_counter_volw" DEFAULT_TICKET_COUNTER_VOLW).2
           "ticket_counter_kind" DEFAULT_TICKET_COUNTER_KIND).1) ∧
    (⟨speelweek_id, film_id, z,
      (db_get_int_setting st "ticket_counter_volw" DEFAULT_TICKET_COUNTER_VOLW).1,
      (db_get_int_setting
        (db_get_int_setting st "ticket_counter_volw" DEFAULT_TICKET_COUNTER_VOLW).2
        "ticket_counter_kind" DEFAULT_TICKET_COUNTER_KIND).1⟩ : TicketRange) ∈
      (db_get_or_create_ticket_range st speelweek_id film_id z).2.ticket_ranges ∧
    (db_get_or_create_ticket_range st speelweek_id film_id z).2.speelweek =
      st.speelweek ∧
    (db_get_or_create_ticket_range st speelweek_id film_id z).2.daily_sales =
      st.daily_sales := by
  have hmain : db_get_or_create_ticket_range st speelweek_id film_id z =
      (((db_get_int_setting st "ticket_counter_volw" DEFAULT_TICKET_COUNTER_VOLW).1,
        (db_get_int_setting
          (db_get_int_setting st "ticket_counter_volw" DEFAULT_TICKET_COUNTER_VOLW).2
          "ticket_counter_kind" DEFAULT_TICKET_COUNTER_KIND).1),
       insert_ticket_range
         (db_get_int_setting
           (db_get_int_setting st "ticket_counter_volw" DEFAULT_TICKET_COUNTER_VOLW).2
           "ticket_counter_kind" DEFAULT_TICKET_COUNTER_KIND).2
         speelweek_id film_id z
         (db_get_int_setting st "ticket_counter_volw" DEFAULT_TICKET_COUNTER_VOLW).1
         (db_get_int_setting
           (db_get_int_setting st "ticket_counter_volw" DEFAULT_TICKET_COUNTER_VOLW).2
           "ticket_counter_kind" DEFAULT_TICKET_COUNTER_KIND).1) := by
    unfold db_get_or_create_ticket_range
    rw [hnor]
    simp only []
    rw [hnosw]
  refine ⟨hmain, ?_, ?_, ?_⟩
  · rw [hmain]
    simp [insert_ticket_range]
  · rw [hmain]
    simp [insert_ticket_range, db_get_int_setting_speelweek]
  · rw [hmain]
    simp [insert_ticket_range, db_get_int_setting_daily_sales]

/-- Witness for C10 at a concrete input: an empty database (no ranges,
no week with id 9): the call returns the default begins (1, 1), persists
the range and both counter defaults, and leaves the other tables empty. -/
theorem ticket_range_dangling_week_witness :
    db_get_or_create_ticket_range witnessState 9 10 none =
      ((1, 1),
       { settings := [("week_start_weekday", "1"), ("ticket_counter_volw", "1"),
           ("ticket_counter_kind", "1")],
         speelweek := [], daily_sales := [],
         ticket_ranges := [⟨9, 10, none, 1, 1⟩], next_speelweek_id := 1 }) ∧
    (⟨9, 10, none, 1, 1⟩ : TicketRange) ∈
      (db_get_or_create_ticket_range witnessState 9 10 none).2.ticket_ranges := by
  have h := ticket_range_dangling_week witnessState 9 10 none (by decide) (by decide)
  exact ⟨h.1, h.2.1⟩

/-! ## C8: week-number correction frame effect -/

/-- C8.  Week-number correction frame effect: the user-triggered
correction `db_update_speelweek_weeknummer` changes only the targeted
speelweek's `weeknummer`: settings, daily sales and ticket ranges are
equal, every speelweek keeps its id and date bounds, every other
speelweek row is completely untouched, and the paid-quantity sums that
feed every derived financial figure are unchanged for every key. -/
theorem update_weeknummer_frame (st : DBState) (i w : Int) :
    (db_update_speelweek_weeknummer st i w).settings = st.settings ∧
    (db_update_speelweek_weeknummer st i w).daily_sales = st.daily_sales ∧
    (db_update_speelweek_weeknummer st i w).ticket_ranges = st.ticket_ranges ∧
    (db_update_speelweek_weeknummer st i w).speelweek.map
        (fun sw => (sw.id, sw.start_datum, sw.eind_datum)) =
      st.speelweek.map (fun sw => (sw.id, sw.start_datum, sw.eind_datum)) ∧
    (∀ sw ∈ st.speelweek, sw.id ≠ i →
      sw ∈ (db_update_speelweek_weeknummer st i w).speelweek) ∧
    (∀ sid fid z, db_sum_paid_qty_for_speelweek
        (db_update_speelweek_weeknummer st i w) sid fid z =
      db_sum_paid_qty_for_speelweek st sid fid z) := by
  refine ⟨rfl, rfl, rfl, ?_, ?_, ?_⟩
  · unfold db_update_speelweek_weeknummer
    simp only [List.map_map]
    apply List.map_congr_left
    intro sw _
    by_cases h : sw.id == i <;> simp [h, Function.comp]
  · intro sw hsw hne
    unfold db_update_speelweek_weeknummer
    simp only [List.mem_map]
    exact ⟨sw, hsw, by simp [hne]⟩
  · intro sid fid z
    rfl

/-- Witness for C8 at a concrete input: correcting week 1's number to 99
in a two-week state leaves the ticket ranges equal and keeps week 2's row
exactly as it was. -/
theorem update_weeknummer_frame_witness :
    (db_update_speelweek_weeknummer
      { settings := [], speelweek := [⟨1, 5, 0, 7⟩, ⟨2, 7, 8, 15⟩],
        daily_sales := [], ticket_ranges := [⟨1, 10, some 1, 100, 50⟩],
        next_speelweek_id := 3 } 1 99).ticket_ranges =
      ({ settings := [], speelweek := [⟨1, 5, 0, 7⟩, ⟨2, 7, 8, 15⟩],
         daily_sales := [], ticket_ranges := [⟨1, 10, some 1, 100, 50⟩],
         next_speelweek_id := 3 } : DBState).ticket_ranges ∧
    (⟨2, 7, 8, 15⟩ : Speelweek) ∈
      (db_update_speelweek_weeknummer
        { settings := [], speelweek := [⟨1, 5, 0, 7⟩, ⟨2, 7, 8, 15⟩],
          daily_sales := [], ticket_ranges := [⟨1, 10, some 1, 100, 50⟩],
          next_speelweek_id := 3 } 1 99).speelweek :=
  ⟨(update_weeknummer_frame
      { settings := [], speelweek := [⟨1, 5, 0, 7⟩, ⟨2, 7, 8, 15⟩],
        daily_sales := [], ticket_ranges := [⟨1, 10, some 1, 100, 50⟩],
        next_speelweek_id := 3 } 1 99).2.2.1,
   (update_weeknummer_frame
      { settings := [], speelweek := [⟨1, 5, 0, 7⟩, ⟨2, 7, 8, 15⟩],
        daily_sales := [], ticket_ranges := [⟨1, 10, some 1, 100, 50⟩],
        next_speelweek_id := 3 } 1 99).2.2.2.2.1
     ⟨2, 7, 8, 15⟩ (by decide) (by decide)⟩

/-! ## C2: financial identities -/

/-- C2.  Financial identities of the statement calculator: gross equals
adult plus child amounts, VAT is gross times the VAT rate, net is gross
minus VAT, the author's fee is net times the author rate, the difference
is net minus fee, tickets_total is the sum of the paid quantities only
(which are the sums of the rows' paid columns), and changing the
free/comp columns arbitrarily changes none of these figures nor the unit
prices. -/
theorem borderel_financial_identities (rows : List BorderelRow) (vr ar : Rat)
    (gv gk : BorderelRow → Int) :
    (borderel_totals rows vr ar).gross_total =
      (borderel_totals rows vr ar).volw_amt + (borderel_totals rows vr ar).kind_amt ∧
    (borderel_totals rows vr ar).btw_total =
      (borderel_totals rows vr ar).gross_total * vr ∧
    (borderel_totals rows vr ar).netto_total =
      (borderel_totals rows vr ar).gross_total - (borderel_totals rows vr ar).btw_total ∧
    (borderel_totals rows vr ar).auteurs_total =
      (borderel_totals rows vr ar).netto_total * ar ∧
    (borderel_totals rows vr ar).verschil =
      (borderel_totals rows vr ar).netto_total - (borderel_totals rows vr ar).auteurs_total ∧
    (borderel_totals rows vr ar).tickets_total =
      (borderel_totals rows vr ar).volw_qty + (borderel_totals rows vr ar).kind_qty ∧
    (borderel_totals rows vr ar).volw_qty = (rows.map (fun r => r.aantal_volw)).sum ∧
    (borderel_totals rows vr ar).kind_qty = (rows.map (fun r => r.aantal_kind)).sum ∧
    (borderel_totals rows vr ar).volw_amt = (rows.map (fun r => r.bedrag_volw)).sum ∧
    (borderel_totals rows vr ar).kind_amt = (rows.map (fun r => r.bedrag_kind)).sum ∧
    (borderel_totals (rows.map (fun r =>
        { r with gratis_volw := gv r, gratis_kind := gk r })) vr ar).gross_total =
      (borderel_totals rows vr ar).gross_total ∧
    (borderel_totals (rows.map (fun r =>
        { r with gratis_volw := gv r, gratis_kind := gk r })) vr ar).tickets_total =
      (borderel_totals rows vr ar).tickets_total ∧
    (borderel_totals (rows.map (fun r =>
        { r with gratis_volw := gv r, gratis_kind := gk r })) vr ar).btw_total =
      (borderel_totals rows vr ar).btw_total ∧
    (borderel_totals (rows.map (fun r =>
        { r with gratis_volw := gv r, gratis_kind := gk r })) vr ar).netto_total =
      (borderel_totals rows vr ar).netto_total ∧
    (borderel_totals (rows.map (fun r =>
        { r with gratis_volw := gv r, gratis_kind := gk r })) vr ar).auteurs_total =
      (borderel_totals rows vr ar).auteurs_total ∧
    (borderel_totals (rows.map (fun r =>
        { r with gratis_volw := gv r, gratis_kind := gk r })) vr ar).verschil =
      (borderel_totals rows vr ar).verschil ∧
    (borderel_totals (rows.map (fun r =>
        { r with gratis_volw := gv r, gratis_kind := gk r })) vr ar).volw_price =
      (borderel_totals rows vr ar).volw_price ∧
    (borderel_totals (rows.map (fun r =>
        { r with gratis_volw := gv r, gratis_kind := gk r })) vr ar).kind_price =
      (borderel_totals rows vr ar).kind_price := by
  have hqv : (rows.map (fun r =>
      { r with gratis_volw := gv r, gratis_kind := gk r })).map
        (fun r => r.aantal_volw) = rows.map (fun r => r.aantal_volw) := by
    rw [List.map_map]
    exact List.map_congr_left (fun r _ => rfl)
  have hqk : (rows.map (fun r =>
      { r with gratis_volw := gv r, gratis_kind := gk r })).map
        (fun r => r.aantal_kind) = rows.map (fun r => r.aantal_kind) := by
    rw [List.map_map]
    exact List.map_congr_left (fun r _ => rfl)
  have hbv : (rows.map (fun r =>
      { r with gratis_volw := gv r, gratis_kind := gk r })).map
        (fun r => r.bedrag_volw) = rows.map (fun r => r.bedrag_volw) := by
    rw [List.map_map]
    exact List.map_congr_left (fun r _ => rfl)
  have hbk : (rows.map (fun r =>
      { r with gratis_volw := gv r, gratis_kind := gk r })).map
        (fun r => r.bedrag_kind) = rows.map (fun r => r.bedrag_kind) := by
    rw [List.map_map]
    exact List.map_congr_left (fun r _ => rfl)
  refine ⟨rfl, rfl, rfl, rfl, rfl, rfl, rfl, rfl, rfl, rfl,
    ?_, ?_, ?_, ?_, ?_, ?_, ?_, ?_⟩ <;>
    simp only [borderel_totals, hqv, hqk, hbv, hbk]

/-! ## C7: unit-price safety -/

/-- C7.  Unit-price safety: the statement calculator's adult and child
unit prices equal amount / quantity whenever the corresponding paid
quantity is positive and are exactly 0 (a number, not null or an
exception) whenever it is 0; the division is guarded, so no division by
zero occurs. -/
theorem borderel_unit_price_safety (rows : List BorderelRow) (vr ar : Rat) :
    ((borderel_totals rows vr ar).volw_qty > 0 →
      (borderel_totals rows vr ar).volw_price =
        (borderel_totals rows vr ar).volw_amt /
          ((borderel_totals rows vr ar).volw_qty : Rat)) ∧
    ((borderel_totals rows vr ar).volw_qty = 0 →
      (borderel_totals rows vr ar).volw_price = 0) ∧
    ((borderel_totals rows vr ar).kind_qty > 0 →
      (borderel_totals rows vr ar).kind_price =
        (borderel_totals rows vr ar).kind_amt /
          ((borderel_totals rows vr ar).kind_qty : Rat)) ∧
    ((borderel_totals rows vr ar).kind_qty = 0 →
      (borderel_totals rows vr ar).kind_price = 0) := by
  refine ⟨?_, ?_, ?_, ?_⟩ <;> intro h <;> simp only [borderel_totals] at h ⊢
  · rw [if_pos (by omega)]
  · rw [if_neg (by omega)]
  · rw [if_pos (by omega)]
  · rw [if_neg (by omega)]

/-- Witness for C7 at concrete inputs: with 37 paid adult tickets the
adult unit price is the quotient; with 0 paid adult tickets it is 0. -/
theorem borderel_unit_price_safety_witness :
    ((borderel_totals [⟨37, 2, 0, 0, 100, 10⟩] (566/10000) (120/10000)).volw_qty > 0 ∧
     (borderel_totals [⟨37, 2, 0, 0, 100, 10⟩] (566/10000) (120/10000)).volw_price =
       (borderel_totals [⟨37, 2, 0, 0, 100, 10⟩] (566/10000) (120/10000)).volw_amt /
         ((borderel_totals [⟨37, 2, 0, 0, 100, 10⟩] (566/10000) (120/10000)).volw_qty : Rat)) ∧
    ((borderel_totals [⟨0, 5, 0, 0, 0, 50⟩] (566/10000) (120/10000)).volw_qty = 0 ∧
     (borderel_totals [⟨0, 5, 0, 0, 0, 50⟩] (566/10000) (120/10000)).volw_price = 0) :=
  ⟨⟨by decide, (borderel_unit_price_safety [⟨37, 2, 0, 0, 100, 10⟩]
      (566/10000) (120/10000)).1 (by decide)⟩,
   ⟨by decide, (borderel_unit_price_safety [⟨0, 5, 0, 0, 0, 50⟩]
      (566/10000) (120/10000)).2.1 (by decide)⟩⟩

/-! ## C9: rate parsing and settings-save rejection -/

/-- C9.  Rate parsing: comma and dot decimal separators and an optional
trailing percent sign are all accepted — `"5,66"`, `"5.66"` and
`"5,66%"` each parse to the rate `566/10000 = 0.0566` — and whenever
either rate input fails to parse, `save_settings` rejects with the
rate-validation error and persists neither `btw_rate` nor
`auteurs_rate`. -/
theorem rate_parsing_and_rejection :
    parse_percent_to_rate "5,66" = some ((566 : Rat) / 10000) ∧
    parse_percent_to_rate "5.66" = some ((566 : Rat) / 10000) ∧
    parse_percent_to_rate "5,66%" = some ((566 : Rat) / 10000) ∧
    ∀ (st : DBState) (lbl wcs btw aut tvs tks : String),
      parse_percent_to_rate btw = none ∨ parse_percent_to_rate aut = none →
      (save_settings st lbl wcs btw aut tvs tks).1 ≠ SettingsSaveResult.ok ∧
      db_get_setting (save_settings st lbl wcs btw aut tvs tks).2 "btw_rate" =
        db_get_setting st "btw_rate" ∧
      db_get_setting (save_settings st lbl wcs btw aut tvs tks).2 "auteurs_rate" =
        db_get_setting st "auteurs_rate" := by
  refine ⟨?_, ?_, ?_, ?_⟩
  · rw [show parse_percent_to_rate "5,66" =
        some (((digitsVal ['5', '6', '6'] : Nat) : Rat) / (10 : Rat) ^ 2 / 100) from rfl]
    rw [show digitsVal ['5', '6', '6'] = 566 from by decide]
    norm_num
  · rw [show parse_percent_to_rate "5.66" =
        some (((digitsVal ['5', '6', '6'] : Nat) : Rat) / (10 : Rat) ^ 2 / 100) from rfl]
    rw [show digitsVal ['5', '6', '6'] = 566 from by decide]
    norm_num
  · rw [show parse_percent_to_rate "5,66%" =
        some (((digitsVal ['5', '6', '6'] : Nat) : Rat) / (10 : Rat) ^ 2 / 100) from rfl]
    rw [show digitsVal ['5', '6', '6'] = 566 from by decide]
    norm_num
  · intro st lbl wcs btw aut tvs tks h
    unfold save_settings
    cases hwc : pyIntOfStr wcs with
    | none =>
      simp only []
      refine ⟨by simp, ?_, ?_⟩ <;>
        rw [db_get_setting_set_other _ _ _ _ (by decide)]
    | some wc =>
      simp only []
      by_cases hlt : wc < 1
      · rw [if_pos hlt]
        refine ⟨by simp, ?_, ?_⟩ <;>
          rw [db_get_setting_set_other _ _ _ _ (by decide)]
      · rw [if_neg hlt]
        have hfin : ∀ st2 : DBState,
            (SettingsSaveResult.badRates, st2).1 ≠ SettingsSaveResult.ok := by
          intro st2
          simp
        rcases h with h | h
        · rw [h]
          simp only []
          refine ⟨by simp, ?_, ?_⟩ <;>
            rw [db_get_setting_set_other _ _ _ _ (by decide),
              db_get_setting_set_other _ _ _ _ (by decide)]
        · cases hb : parse_percent_to_rate btw with
          | none =>
            simp only []
            refine ⟨by simp, ?_, ?_⟩ <;>
              rw [db_get_setting_set_other _ _ _ _ (by decide),
                db_get_setting_set_other _ _ _ _ (by decide)]
          | some b =>
            rw [h]
            simp only []
            refine ⟨by simp, ?_, ?_⟩ <;>
              rw [db_get_setting_set_other _ _ _ _ (by decide),
                db_get_setting_set_other _ _ _ _ (by decide)]

/-- Witness for C9 at a concrete input: `"abc"` does not parse, and
saving with it as the VAT rate is rejected and leaves both rate keys
absent from the settings of an initially fresh state. -/
theorem rate_parsing_and_rejection_witness :
    (parse_percent_to_rate "abc" = none ∨ parse_percent_to_rate "1,20" = none) ∧
    ((save_settings witnessState "Dinsdag" "5" "abc" "1,20" "1" "1").1 ≠
        SettingsSaveResult.ok ∧
      db_get_setting (save_settings witnessState "Dinsdag" "5" "abc" "1,20" "1" "1").2
          "btw_rate" =
        db_get_setting witnessState "btw_rate" ∧
      db_get_setting (save_settings witnessState "Dinsdag" "5" "abc" "1,20" "1" "1").2
          "auteurs_rate" =
        db_get_setting witnessState "auteurs_rate") :=
  ⟨Or.inl (by decide),
   rate_parsing_and_rejection.2.2.2 witnessState "Dinsdag" "5" "abc" "1,20" "1" "1"
     (Or.inl (by decide))⟩
